import Mathlib

/-!
Shallow embedding of `src/docs/conf.py`, the Sphinx documentation
configuration module of the Numerixx repository, together with proofs of
the specification claims about it.

The module body is a straight-line sequence of assignments of string or
list literals to names.  We model Python values restricted to what the
module uses (strings and lists of strings), expressions (string literals,
list literals, and name references, the latter so that evaluation can in
principle fail with a NameError), assignment statements, and module
evaluation over an environment mapping names to values.  New bindings are
consed onto the front of the environment, so lookup finds the most recent
assignment, matching Python shadowing.
-/

namespace ConfPy

/-- Python values occurring in the configuration module: strings and lists
of strings. -/
inductive Val where
  | str (s : String)
  | list (xs : List String)
deriving DecidableEq

/-- Right-hand sides of the assignments: string literals, list-of-string
literals, and name references (a name reference raises NameError when the
name is unbound, which is how module evaluation could fail). -/
inductive Expr where
  | strLit (s : String)
  | listLit (xs : List String)
  | name (x : String)
deriving DecidableEq

/-- Top-level statements of the module: assignments of an expression to a
name.  `conf.py` contains nothing but such assignments. -/
inductive Stmt where
  | assign (x : String) (e : Expr)
deriving DecidableEq

/-- The name a statement assigns to. -/
def Stmt.target : Stmt → String
  | .assign x _ => x

/-- Evaluation errors: the only possible failure is an unbound name. -/
inductive EvalError where
  | nameError (x : String)
deriving DecidableEq

/-- The module-level environment: an association list from names to
values, most recent binding first. -/
abbrev Env : Type := List (String × Val)

/-- Evaluate an expression in an environment. -/
def evalExpr (env : Env) : Expr → Except EvalError Val
  | .strLit s => .ok (.str s)
  | .listLit xs => .ok (.list xs)
  | .name x =>
    match List.lookup x env with
    | some v => .ok v
    | none => .error (.nameError x)

/-- Execute one assignment statement: evaluate the right-hand side and
bind the result to the target name. -/
def evalStmt (env : Env) : Stmt → Except EvalError Env
  | .assign x e => (evalExpr env e).map fun v => (x, v) :: env

/-- Execute a module body, statement by statement, from an initial
environment. -/
def evalModule (env : Env) : List Stmt → Except EvalError Env
  | [] => .ok env
  | s :: rest => do
    let env2 ← evalStmt env s
    evalModule env2 rest

/-- Big-step execution relation for one statement. -/
inductive ExecStmt : Env → Stmt → Env → Prop where
  | assign {env : Env} {x : String} {e : Expr} {v : Val} :
      evalExpr env e = .ok v → ExecStmt env (.assign x e) ((x, v) :: env)

/-- Big-step execution relation for a module body. -/
inductive ExecSeq : Env → List Stmt → Env → Prop where
  | nil {env : Env} : ExecSeq env [] env
  | cons {env env2 env3 : Env} {s : Stmt} {rest : List Stmt} :
      ExecStmt env s env2 → ExecSeq env2 rest env3 → ExecSeq env (s :: rest) env3

/-- Small-step relation on configurations (remaining statements paired
with the current environment). -/
inductive Step : List Stmt × Env → List Stmt × Env → Prop where
  | assign {env : Env} {x : String} {e : Expr} {v : Val} {rest : List Stmt} :
      evalExpr env e = .ok v →
      Step (.assign x e :: rest, env) (rest, (x, v) :: env)

/-- The body of `src/docs/conf.py`, statement by statement, in source
order.  Comment lines (including the three commented-out alternative
`html_theme` choices on lines 27 and 29-30) are not statements and do not
appear. -/
def confModule : List Stmt :=
  [ .assign "project" (.strLit "Numerixx")
  , .assign "copyright" (.strLit "2023, TheCodeOwl.com")
  , .assign "author" (.strLit "Troldal")
  , .assign "release" (.strLit "0.0.1")
  , .assign "extensions" (.listLit ["breathe"])
  , .assign "templates_path" (.listLit ["_templates"])
  , .assign "exclude_patterns" (.listLit ["_build", "Thumbs.db", ".DS_Store"])
  , .assign "html_theme" (.strLit "sphinx_rtd_theme")
  , .assign "html_static_path" (.listLit ["_static"])
  , .assign "breathe_default_project" (.strLit "Numerixx")
  ]

/-- The bindings the module produces, most recent first; executing the
module from `env` yields `confBindings ++ env`. -/
def confBindings : Env :=
  [ ("breathe_default_project", .str "Numerixx")
  , ("html_static_path", .list ["_static"])
  , ("html_theme", .str "sphinx_rtd_theme")
  , ("exclude_patterns", .list ["_build", "Thumbs.db", ".DS_Store"])
  , ("templates_path", .list ["_templates"])
  , ("extensions", .list ["breathe"])
  , ("release", .str "0.0.1")
  , ("author", .str "Troldal")
  , ("copyright", .str "2023, TheCodeOwl.com")
  , ("project", .str "Numerixx")
  ]

/-- The names the module assigns to, in source order. -/
def assignedNames (m : List Stmt) : List String :=
  m.map Stmt.target

/-- How many statements of a module assign to a given name. -/
def assignCount (x : String) (m : List Stmt) : Nat :=
  (m.filter fun s => s.target == x).length

/-- The four binding names the specification lists as the only metadata:
project name, author, theme selection, and extension list. -/
def specTopLevelNames : List String :=
  ["project", "author", "html_theme", "extensions"]

theorem evalModule_conf (env : Env) :
    evalModule env confModule = .ok (confBindings ++ env) := rfl

theorem execSeq_conf (env : Env) : ExecSeq env confModule (confBindings ++ env) :=
  .cons (.assign rfl) (.cons (.assign rfl) (.cons (.assign rfl)
    (.cons (.assign rfl) (.cons (.assign rfl) (.cons (.assign rfl)
    (.cons (.assign rfl) (.cons (.assign rfl) (.cons (.assign rfl)
    (.cons (.assign rfl) .nil)))))))))

theorem execStmt_det {env env1 env2 : Env} {s : Stmt}
    (h1 : ExecStmt env s env1) (h2 : ExecStmt env s env2) : env1 = env2 := by
  cases h1 with
  | assign hv1 =>
    cases h2 with
    | assign hv2 =>
      rw [hv1] at hv2
      cases hv2
      rfl

theorem execSeq_det {env env1 env2 : Env} {m : List Stmt}
    (h1 : ExecSeq env m env1) (h2 : ExecSeq env m env2) : env1 = env2 := by
  induction h1 generalizing env2 with
  | nil => cases h2; rfl
  | cons hs _ ih =>
    cases h2 with
    | cons hs2 hrest2 =>
      cases execStmt_det hs hs2
      exact ih hrest2

theorem steps_conf (env : Env) :
    Relation.ReflTransGen Step (confModule, env) ([], confBindings ++ env) :=
  .head (.assign rfl) (.head (.assign rfl) (.head (.assign rfl)
    (.head (.assign rfl) (.head (.assign rfl) (.head (.assign rfl)
    (.head (.assign rfl) (.head (.assign rfl) (.head (.assign rfl)
    (.head (.assign rfl) .refl)))))))))

theorem no_step_from_empty (env : Env) (t : List Stmt × Env) :
    ¬ Step ([], env) t := fun h => nomatch h

end ConfPy

open ConfPy

/-- Claim C1 counterexample: the module binds the name `release`, which is
not among the four names the specification lists (project name, author,
theme selection, extension list), so the top-level bindings are not
exactly those four. -/
theorem conf_bindings_not_only_four :
    "release" ∈ assignedNames confModule ∧ "release" ∉ specTopLevelNames := by
  decide

/-- Claim C1 (amended): the top-level bindings of the module are exactly
the ten metadata names `project`, `copyright`, `author`, `release`,
`extensions`, `templates_path`, `exclude_patterns`, `html_theme`,
`html_static_path`, and `breathe_default_project`, in that order, and
nothing else. -/
theorem conf_bindings_exact :
    assignedNames confModule =
      [ "project", "copyright", "author", "release", "extensions"
      , "templates_path", "exclude_patterns", "html_theme"
      , "html_static_path", "breathe_default_project" ] := by
  decide

/-- Claim C2: evaluation of the configuration module always succeeds: from
any starting environment it returns `ok` (never a NameError), binding the
ten literal values on top of the initial environment. -/
theorem conf_eval_no_error (env : Env) :
    evalModule env confModule = .ok (confBindings ++ env) :=
  evalModule_conf env

/-- Claim C3: after evaluating the configuration module, the binding named
`project` equals the string `Numerixx`. -/
theorem conf_project_eq (env env2 : Env)
    (h : evalModule env confModule = .ok env2) :
    List.lookup "project" env2 = some (Val.str "Numerixx") := by
  rw [evalModule_conf] at h
  cases h
  rfl

/-- Witness for C3: evaluating from the empty environment, `project` is
bound to `Numerixx`. -/
theorem conf_project_eq_witness :
    List.lookup "project" confBindings = some (Val.str "Numerixx") :=
  conf_project_eq [] confBindings rfl

/-- Claim C4: after evaluating the configuration module, the binding named
`extensions` equals the one-element list containing exactly `breathe`. -/
theorem conf_extensions_eq (env env2 : Env)
    (h : evalModule env confModule = .ok env2) :
    List.lookup "extensions" env2 = some (Val.list ["breathe"]) := by
  rw [evalModule_conf] at h
  cases h
  rfl

/-- Witness for C4: evaluating from the empty environment, `extensions` is
bound to the one-element list `breathe`. -/
theorem conf_extensions_eq_witness :
    List.lookup "extensions" confBindings = some (Val.list ["breathe"]) :=
  conf_extensions_eq [] confBindings rfl

/-- Claim C5: the module assigns to `html_theme` exactly once, and after
evaluation `html_theme` equals the string `sphinx_rtd_theme`. -/
theorem conf_html_theme_once_eq :
    assignCount "html_theme" confModule = 1 ∧
    ∀ env env2 : Env, evalModule env confModule = .ok env2 →
      List.lookup "html_theme" env2 = some (Val.str "sphinx_rtd_theme") := by
  refine ⟨by decide, fun env env2 h => ?_⟩
  rw [evalModule_conf] at h
  cases h
  rfl

/-- Witness for C5: evaluating from the empty environment, `html_theme` is
bound to `sphinx_rtd_theme`. -/
theorem conf_html_theme_once_eq_witness :
    List.lookup "html_theme" confBindings = some (Val.str "sphinx_rtd_theme") :=
  conf_html_theme_once_eq.2 [] confBindings rfl

/-- Claim C6: evaluation of the configuration module is deterministic: any
two executions of the module from the same initial environment produce the
same final environment. -/
theorem conf_eval_deterministic (env env1 env2 : Env)
    (h1 : ExecSeq env confModule env1) (h2 : ExecSeq env confModule env2) :
    env1 = env2 :=
  execSeq_det h1 h2

/-- Witness for C6: two executions of the module from the empty
environment agree. -/
theorem conf_eval_deterministic_witness :
    confBindings ++ ([] : Env) = confBindings ++ ([] : Env) :=
  conf_eval_deterministic [] _ _ (execSeq_conf []) (execSeq_conf [])

/-- Claim C7: after evaluating the configuration module, the binding named
`author` equals the string `Troldal`. -/
theorem conf_author_eq (env env2 : Env)
    (h : evalModule env confModule = .ok env2) :
    List.lookup "author" env2 = some (Val.str "Troldal") := by
  rw [evalModule_conf] at h
  cases h
  rfl

/-- Witness for C7: evaluating from the empty environment, `author` is
bound to `Troldal`. -/
theorem conf_author_eq_witness :
    List.lookup "author" confBindings = some (Val.str "Troldal") :=
  conf_author_eq [] confBindings rfl

/-- Claim C8: after evaluating the configuration module, the Breathe
default project name agrees with the Sphinx project name: both
`breathe_default_project` and `project` are bound to the string
`Numerixx`. -/
theorem conf_breathe_project_agrees (env env2 : Env)
    (h : evalModule env confModule = .ok env2) :
    List.lookup "breathe_default_project" env2 = List.lookup "project" env2 ∧
    List.lookup "project" env2 = some (Val.str "Numerixx") := by
  rw [evalModule_conf] at h
  cases h
  exact ⟨rfl, rfl⟩

/-- Witness for C8: evaluating from the empty environment,
`breathe_default_project` and `project` agree and equal `Numerixx`. -/
theorem conf_breathe_project_agrees_witness :
    List.lookup "breathe_default_project" confBindings =
      List.lookup "project" confBindings ∧
    List.lookup "project" confBindings = some (Val.str "Numerixx") :=
  conf_breathe_project_agrees [] confBindings rfl

/-- Claim C9: evaluation of the configuration module terminates for every
starting environment: from any initial environment the small-step
execution reaches a terminal configuration with no statements left, from
which no further step is possible. -/
theorem conf_eval_terminates (env : Env) :
    ∃ env2 : Env,
      Relation.ReflTransGen Step (confModule, env) ([], env2) ∧
      ∀ t : List Stmt × Env, ¬ Step ([], env2) t :=
  ⟨confBindings ++ env, steps_conf env, no_step_from_empty _⟩

/-- Claim C10: after evaluating the configuration module, the binding
named `release` equals the string `0.0.1`. -/
theorem conf_release_eq (env env2 : Env)
    (h : evalModule env confModule = .ok env2) :
    List.lookup "release" env2 = some (Val.str "0.0.1") := by
  rw [evalModule_conf] at h
  cases h
  rfl

/-- Witness for C10: evaluating from the empty environment, `release` is
bound to `0.0.1`. -/
theorem conf_release_eq_witness :
    List.lookup "release" confBindings = some (Val.str "0.0.1") :=
  conf_release_eq [] confBindings rfl
